import Mathlib

/-!
Shallow embedding of the redbpf packet-processing library (kbknapp/redbpf):
the raw-buffer trait (src/redbpf-probes/src/net/buf.rs), the protocol cursor
and the Ethernet/IPv4/TCP/UDP parse chain with its dispatch enums
(src/redbpf-probes/src/net/layer2/eth.rs, layer3.rs, layer3/ipv4.rs,
layer4.rs, layer4/tcp.rs, layer4/udp.rs), the MapData wire record and the
XDP perf map (src/redbpf-probes/src/net/xdp.rs, src/redbpf/src/xdp.rs,
src/redbpf-maps/src/lib.rs).

Machine memory is modelled as a total map from absolute addresses to byte
values; a Rust raw pointer is its address (the null pointer is address 0).
A value of a Rust type `U` enters the model through its size and alignment.
Operations that can panic in Rust return `Option` (with `none` for the
panic); fallible operations return `Except Error`.
-/

namespace RedBpf

/-- The error enumeration from src/redbpf-probes/src/net/error.rs. -/
inductive Error where
  | Other
  | OutOfBounds
  | TypeFromBytes
  | UnknownProtocol
  | WrongProtocol
  | LoadFailed
  | UnimplementedProtocol (code : Nat)
  | NullPtr
  | Unaligned
deriving DecidableEq, Repr

/-- A `RawBuf` implementer: the trait only requires the `start()` and `end()`
address accessors; `mem` is the byte of machine memory at each absolute
address, modelling what dereferencing a raw pointer reads. -/
structure RawBufModel where
  startAddr : Nat
  endAddr : Nat
  mem : Nat → Nat

/-- `RawBuf::len`: `end() - start()`. -/
def RawBufModel.len (b : RawBufModel) : Nat :=
  b.endAddr - b.startAddr

/-- `RawBuf::check_bound(addr)`: `!(addr > self.end() || addr < self.start())`. -/
def RawBufModel.check_bound (b : RawBufModel) (addr : Nat) : Bool :=
  !(addr > b.endAddr || addr < b.startAddr)

/-- `RawBuf::check_bounds(start, end)`:
`!(start >= end || start < self.start() || end > self.end())`. -/
def RawBufModel.check_bounds (b : RawBufModel) (s e : Nat) : Bool :=
  !(decide (s ≥ e) || decide (s < b.startAddr) || decide (e > b.endAddr))

/-- Size and alignment of a Rust type `U` (`mem::size_of::<U>()`,
`mem::align_of::<U>()`). -/
structure RustType where
  size : Nat
  align : Nat

/-- `RawBuf::ptr_at::<U>(offset)` from net/buf.rs:
`if self.check_bound(offset + mem::size_of::<U>()) { return Some(offset as *const U); } None`.
The returned pointer is the bare `offset` cast to a pointer, exactly as in
the source. -/
def RawBufModel.ptr_at (b : RawBufModel) (sizeU : Nat) (offset : Nat) : Option Nat :=
  if b.check_bound (offset + sizeU) then some offset else none

/-- The `mem::size_of::<U>()` bytes of memory starting at address `addr`:
what `ptr::copy_nonoverlapping(ptr, dst_ptr, mem::size_of::<T>())` copies. -/
def readBytes (b : RawBufModel) (addr n : Nat) : List Nat :=
  (List.range n).map fun i => b.mem (addr + i)

/-- `RawBuf::load::<T>(offset)` from net/buf.rs lines 184-235.  `dstAddr` is
the address of the local `MaybeUninit::<T>` destination slot (the Rust
compiler always places it aligned, but the source checks it anyway):
if `ptr_at` succeeds with pointer `ptr`, the source returns
`Err(Error::Unaligned)` when `ptr as usize % align != 0 || dst_ptr as usize % align != 0`,
otherwise copies `size_of::<T>()` bytes from `ptr` and returns them `Ok`;
when `ptr_at` fails it returns `Err(Error::LoadFailed)`. -/
def RawBufModel.load (b : RawBufModel) (T : RustType) (offset dstAddr : Nat) :
    Except Error (List Nat) :=
  match b.ptr_at T.size offset with
  | some p =>
    if p % T.align != 0 || dstAddr % T.align != 0 then
      .error .Unaligned
    else
      .ok (readBytes b p T.size)
  | none => .error .LoadFailed

/-- The protocol cursor `NetBuf` (net/buf.rs): the wrapped `RawBuf` plus the
offset from `buf.start()` where the next header or body begins. -/
structure NetBuf where
  buf : RawBufModel
  nh_offset : Nat

/-- `mem::size_of::<ethhdr>()`: 6 + 6 + 2 bytes. -/
def ethhdrSize : Nat := 14

/-- `mem::size_of::<iphdr>()`: the fixed 20-byte IPv4 header struct. -/
def iphdrSize : Nat := 20

/-- `mem::size_of::<tcphdr>()`: the fixed 20-byte TCP header struct. -/
def tcphdrSize : Nat := 20

/-- `mem::size_of::<udphdr>()`: the 8-byte UDP header struct. -/
def udphdrSize : Nat := 8

/-- Value of a 16-bit header field read with `u16::from_be` on a
little-endian host: the byte at the lower address is the most significant. -/
def readU16be (b : RawBufModel) (addr : Nat) : Nat :=
  b.mem addr * 256 + b.mem (addr + 1)

/-- Value of a raw 16-bit header field as a little-endian host reads it
(no byte-order conversion in the source). -/
def readU16le (b : RawBufModel) (addr : Nat) : Nat :=
  b.mem addr + 256 * b.mem (addr + 1)

/-- Overwrite one byte of machine memory (a write through a header-field
reference). -/
def RawBufModel.writeByte (b : RawBufModel) (addr v : Nat) : RawBufModel :=
  { b with mem := fun a => if a = addr then v else b.mem a }

/-- The `ETH_P_IP` EtherType constant (0x0800). -/
def ETH_P_IP : Nat := 0x0800

/-- The `IPPROTO_TCP` protocol number constant. -/
def IPPROTO_TCP : Nat := 6

/-- The `IPPROTO_UDP` protocol number constant. -/
def IPPROTO_UDP : Nat := 17

/-- The Ethernet header view (layer2/eth.rs): the `&mut ethhdr` reference
(kept as the address `ptr_at` produced) plus the advanced cursor. -/
structure Ethernet where
  hdrAddr : Nat
  buf : NetBuf

/-- `Ethernet::from_bytes` (layer2/eth.rs lines 161-189): `ptr_at::<ethhdr>`
at the cursor offset, advance `nh_offset` by `size_of::<ethhdr>()`, then the
`(eth as *mut ethhdr).as_mut()` null check (`None` exactly when the pointer
is address 0), `Err(Error::NullPtr)` on a null pointer and
`Err(Error::OutOfBounds)` when `ptr_at` failed.  In the source the offset
advance happens before the null check; the advance is only observable on the
success path, so performing the null test first returns the same value. -/
def Ethernet.from_bytes (buf : NetBuf) : Except Error Ethernet :=
  match buf.buf.ptr_at ethhdrSize buf.nh_offset with
  | some p =>
    if p = 0 then
      .error .NullPtr
    else
      .ok { hdrAddr := p, buf := { buf with nh_offset := buf.nh_offset + ethhdrSize } }
  | none => .error .OutOfBounds

/-- `Ethernet::proto`: `u16::from_be(self.hdr.h_proto)` where `h_proto` sits
at byte offset 12 of `ethhdr`. -/
def Ethernet.proto (e : Ethernet) : Nat :=
  readU16be e.buf.buf (e.hdrAddr + 12)

/-- The IPv4 header view (layer3/ipv4.rs). -/
structure Ipv4 where
  hdrAddr : Nat
  buf : NetBuf

/-- `Ipv4::from_bytes` (layer3/ipv4.rs lines 215-238): same pattern as
`Ethernet::from_bytes` with `size_of::<iphdr>()`. -/
def Ipv4.from_bytes (buf : NetBuf) : Except Error Ipv4 :=
  match buf.buf.ptr_at iphdrSize buf.nh_offset with
  | some p =>
    if p = 0 then
      .error .NullPtr
    else
      .ok { hdrAddr := p, buf := { buf with nh_offset := buf.nh_offset + iphdrSize } }
  | none => .error .OutOfBounds

/-- `Ipv4::protocol`: the `protocol` byte at offset 9 of `iphdr`. -/
def Ipv4.protocol (ip : Ipv4) : Nat :=
  ip.buf.buf.mem (ip.hdrAddr + 9)

/-- The raw 16-bit `frag_off` field at offset 6 of `iphdr`, read without
byte-order conversion as in the source. -/
def Ipv4.frag_off (ip : Ipv4) : Nat :=
  readU16le ip.buf.buf (ip.hdrAddr + 6)

/-- `Ipv4::df` (layer3/ipv4.rs line 59): `self.hdr.frag_off & 0x4000 == 1`. -/
def Ipv4.df (ip : Ipv4) : Bool :=
  ip.frag_off &&& 0x4000 == 1

/-- `Ipv4::mf` (layer3/ipv4.rs line 64): `self.hdr.frag_off & 0x2000 == 1`. -/
def Ipv4.mf (ip : Ipv4) : Bool :=
  ip.frag_off &&& 0x2000 == 1

/-- `Ipv4::ttl`: the `ttl` byte at offset 8 of `iphdr`. -/
def Ipv4.ttl (ip : Ipv4) : Nat :=
  ip.buf.buf.mem (ip.hdrAddr + 8)

/-- `Ipv4::decr_ttl`: `self.hdr.ttl -= 1`, the wrapping u8 decrement the
release-built BPF object performs. -/
def Ipv4.decr_ttl (ip : Ipv4) : Ipv4 :=
  { ip with
    buf := { ip.buf with buf := ip.buf.buf.writeByte (ip.hdrAddr + 8) ((ip.ttl + 255) % 256) } }

/-- `Ipv4::incr_ttl`: `self.hdr.ttl += 1`, the wrapping u8 increment the
release-built BPF object performs. -/
def Ipv4.incr_ttl (ip : Ipv4) : Ipv4 :=
  { ip with
    buf := { ip.buf with buf := ip.buf.buf.writeByte (ip.hdrAddr + 8) ((ip.ttl + 1) % 256) } }

/-- The TCP header view (layer4/tcp.rs). -/
structure Tcp where
  hdrAddr : Nat
  buf : NetBuf

/-- `Tcp::from_bytes` (layer4/tcp.rs lines 279-302): same pattern with
`size_of::<tcphdr>()`. -/
def Tcp.from_bytes (buf : NetBuf) : Except Error Tcp :=
  match buf.buf.ptr_at tcphdrSize buf.nh_offset with
  | some p =>
    if p = 0 then
      .error .NullPtr
    else
      .ok { hdrAddr := p, buf := { buf with nh_offset := buf.nh_offset + tcphdrSize } }
  | none => .error .OutOfBounds

/-- The UDP header view (layer4/udp.rs). -/
structure Udp where
  hdrAddr : Nat
  buf : NetBuf

/-- `Udp::from_bytes` (layer4/udp.rs lines 130-152): same pattern with
`size_of::<udphdr>()`. -/
def Udp.from_bytes (buf : NetBuf) : Except Error Udp :=
  match buf.buf.ptr_at udphdrSize buf.nh_offset with
  | some p =>
    if p = 0 then
      .error .NullPtr
    else
      .ok { hdrAddr := p, buf := { buf with nh_offset := buf.nh_offset + udphdrSize } }
  | none => .error .OutOfBounds

/-- The layer-3 dispatch enum (layer3.rs): one variant per supported
protocol plus the hidden placeholder. -/
inductive L3Proto where
  | Ipv4 (ip : RedBpf.Ipv4)
  | NonExaustive

/-- The layer-4 dispatch enum (layer4.rs).  The source names the placeholder
variant with a leading underscore, which Lean reserves, so it is dropped
here. -/
inductive L4Proto where
  | Tcp (t : RedBpf.Tcp)
  | Udp (u : RedBpf.Udp)
  | NonExaustive

/-- `Ethernet::parse` (layer2/eth.rs lines 152-158): match `proto()` against
`ETH_P_IP` and on a match run `self.parse_as::<Ipv4<T>>()`, which is
`Ipv4::from_bytes` on the cursor the Ethernet value owns; any other value
yields `Err(Error::UnimplementedProtocol(p))`. -/
def Ethernet.parse (e : Ethernet) : Except Error L3Proto :=
  if e.proto = ETH_P_IP then
    match Ipv4.from_bytes e.buf with
    | .ok ip => .ok (L3Proto.Ipv4 ip)
    | .error err => .error err
  else
    .error (.UnimplementedProtocol e.proto)

/-- `Ipv4::parse` (layer3/ipv4.rs lines 201-208): match `protocol()` against
`IPPROTO_TCP` only; the TCP arm runs `Tcp::from_bytes(self.data())` and any
other protocol value, UDP included, yields
`Err(Error::UnimplementedProtocol(p))`. -/
def Ipv4.parse (ip : Ipv4) : Except Error L4Proto :=
  if ip.protocol = IPPROTO_TCP then
    match Tcp.from_bytes ip.buf with
    | .ok t => .ok (L4Proto.Tcp t)
    | .error err => .error err
  else
    .error (.UnimplementedProtocol ip.protocol)

/-- `L3Proto::inner_buf` (layer3.rs lines 39-44): unwrap the cursor of the
`Ipv4` variant; the wildcard arm raises the unimplemented panic, modelled as
`none`. -/
def L3Proto.inner_buf : L3Proto → Option NetBuf
  | .Ipv4 ip => some ip.buf
  | .NonExaustive => none

/-- `L3Proto::parse` (layer3.rs lines 55-69): on the `Ipv4` variant match
`protocol()` against `IPPROTO_TCP` and `IPPROTO_UDP`, running
`Tcp::from_bytes` or `Udp::from_bytes` on the residual cursor, with
`Err(Error::UnimplementedProtocol(p))` otherwise; the wildcard arm is the
unreachable panic, modelled as `none`. -/
def L3Proto.parse : L3Proto → Option (Except Error L4Proto)
  | .Ipv4 ip =>
    if ip.protocol = IPPROTO_TCP then
      some (match Tcp.from_bytes ip.buf with
            | .ok t => .ok (L4Proto.Tcp t)
            | .error err => .error err)
    else if ip.protocol = IPPROTO_UDP then
      some (match Udp.from_bytes ip.buf with
            | .ok u => .ok (L4Proto.Udp u)
            | .error err => .error err)
    else
      some (.error (.UnimplementedProtocol ip.protocol))
  | .NonExaustive => none

/-- `L4Proto::inner_buf` (layer4.rs lines 26-33): only the `Tcp` variant is
matched; the wildcard arm raises the unimplemented panic, and it catches the
`Udp` variant as well as the placeholder.  The panic is modelled as `none`. -/
def L4Proto.inner_buf : L4Proto → Option NetBuf
  | .Tcp t => some t.buf
  | _ => none

/-- `Packet::buf` for `L4Proto` (layer4.rs lines 47-50): `self.inner_buf()`. -/
def L4Proto.buf (l : L4Proto) : Option NetBuf :=
  l.inner_buf

/-- `Packet::parse` for `L4Proto` (layer4.rs lines 73-76):
`Ok(self.inner_buf())`, so it inherits the panic of `inner_buf`. -/
def L4Proto.parse (l : L4Proto) : Option (Except Error NetBuf) :=
  match l.inner_buf with
  | some b => some (.ok b)
  | none => none

/-- The walk of claim C1: obtain the cursor at offset 0 over the context
buffer, `Ethernet::from_bytes`, `Ethernet::parse`, then `L3Proto::parse` on
the resulting dispatch value.  `none` is a panic; errors pass through. -/
def walkChain (b : RawBufModel) : Option (Except Error L4Proto) :=
  match Ethernet.from_bytes { buf := b, nh_offset := 0 } with
  | .error err => some (.error err)
  | .ok eth =>
    match eth.parse with
    | .error err => some (.error err)
    | .ok l3 => l3.parse

/-- The kernel-side `MapData<T>` record (src/redbpf-probes/src/net/xdp.rs
lines 156-184): `#[repr(C)]` fields `data: T, offset: u32, size: u32,
payload: [u8; 0]` in that declaration order.  The typed payload is kept as
its byte image. -/
structure MapData where
  data : List Nat
  offset : Nat
  size : Nat
deriving DecidableEq, Repr

/-- `MapData::with_payload(data, offset, size)`. -/
def MapData.with_payload (x : List Nat) (offset size : Nat) : MapData :=
  { data := x, offset := offset, size := size }

/-- `MapData::new(data)`: `MapData::with_payload(data, 0, 0)`. -/
def MapData.new (x : List Nat) : MapData :=
  MapData.with_payload x 0 0

/-- Little-endian byte image of a `u32` field. -/
def le32 (v : Nat) : List Nat :=
  [v % 256, v / 256 % 256, v / 65536 % 256, v / 16777216 % 256]

/-- The `#[repr(C)]` byte layout of the kernel-side record: `data` bytes,
then the `offset` word, then the `size` word; the trailing `payload`
marker has size 0. -/
def MapData.encode (r : MapData) : List Nat :=
  r.data ++ le32 r.offset ++ le32 r.size

/-- The user-space wire-mirror `MapData<T>` (src/redbpf/src/xdp.rs lines
29-34): independently declared with the same `#[repr(C)]` field order
`data: T, offset: u32, size: u32, payload: [u8; 0]`. -/
structure MapDataUser where
  data : List Nat
  offset : Nat
  size : Nat
deriving DecidableEq, Repr

/-- Reading a `u32` stored little-endian at the head of a byte list. -/
def readLe32 (l : List Nat) : Nat :=
  l.getD 0 0 + 256 * l.getD 1 0 + 65536 * l.getD 2 0 + 16777216 * l.getD 3 0

/-- Reinterpreting a received byte buffer through the user-space mirror
declaration for a payload type of `n` bytes: the first `n` bytes are `data`,
the next word is `offset`, the next word is `size`. -/
def MapDataUser.decode (n : Nat) (bytes : List Nat) : MapDataUser :=
  { data := bytes.take n
  , offset := readLe32 (bytes.drop n)
  , size := readLe32 (bytes.drop (n + 4)) }

/-- Modelled from the spec: `PerfMapFlags` lives in the `crate::maps` module,
which is not among the source files; per the spec it carries the event index
key and the XDP payload-size flag field `xdp_size`. -/
structure PerfMapFlags where
  index : Nat
  xdp_size : Nat
deriving DecidableEq, Repr

/-- Modelled from the spec: the current-CPU key value used when an event is
keyed by the current CPU number. -/
def BPF_F_CURRENT_CPU : Nat := 0xffffffff

/-- Modelled from the spec: `PerfMapFlags::with_xdp_size(size)` builds flags
keyed by the current CPU whose `xdp_size` field is `size`. -/
def PerfMapFlags.with_xdp_size (size : Nat) : PerfMapFlags :=
  { index := BPF_F_CURRENT_CPU, xdp_size := size }

/-- `PerfMap::insert` (src/redbpf-probes/src/net/xdp.rs lines 206-211): the
observable effect is the record and flags handed to the wrapped base map,
`self.0.insert_with_flags(ctx.inner(), data, PerfMapFlags::with_xdp_size(data.size))`. -/
def PerfMap.insert (data : MapData) : MapData × PerfMapFlags :=
  (data, PerfMapFlags.with_xdp_size data.size)

/-- `PerfMap::insert_with_flags` (src/redbpf-probes/src/net/xdp.rs lines
214-224): `flags.xdp_size = data.size;` then hand `(data, flags)` to the
wrapped base map. -/
def PerfMap.insert_with_flags (data : MapData) (flags : PerfMapFlags) :
    MapData × PerfMapFlags :=
  (data, { flags with xdp_size := data.size })

/-- The XDP return codes (src/redbpf-probes/src/net/xdp.rs lines 73-91). -/
inductive XdpAction where
  | Aborted
  | Drop
  | Pass
  | Tx
  | Redirect
deriving DecidableEq, Repr

/-- An argument of `XdpAction::from_any::<T>`: either a value whose `TypeId`
is that of `XdpAction` (the downcast then succeeds and yields the value), or
a value of any other type, identified by its own `TypeId`. -/
inductive AnyValue where
  | action (a : XdpAction)
  | other (typeId : Nat)

/-- `XdpAction::from_any` (src/redbpf-probes/src/net/xdp.rs lines 93-104):
when the type ids match, downcast and return the copied value; in every
other case fall through to `XdpAction::Pass`. -/
def XdpAction.from_any : AnyValue → XdpAction
  | .action a => a
  | .other _ => .Pass

/-! Concrete inputs used by the claim theorems. -/

/-- The 34-byte buffer of claim C1: a 14-byte Ethernet header whose EtherType
bytes are 0x08 0x00 (IPv4), then a 20-byte IPv4 header whose `protocol` byte
(buffer index 23) is the given value. -/
def c1bytes (proto : Nat) : List Nat :=
  List.replicate 12 0 ++ [8, 0] ++ (69 :: List.replicate 8 0) ++ [proto] ++ List.replicate 10 0

/-- The claim C1 buffer placed at start address 0 (addresses below `start()`
cannot occur, so this is the only placement at which the lower comparison in
`check_bound` can pass for the first header). -/
def c1buf (proto : Nat) : RawBufModel :=
  { startAddr := 0, endAddr := 34, mem := fun a => (c1bytes proto).getD a 0 }

/-- The claim C1 buffer placed at start address 100. -/
def c1bufShifted (proto : Nat) : RawBufModel :=
  { startAddr := 100, endAddr := 134, mem := fun a => (c1bytes proto).getD (a - 100) 0 }

/-- A 34-byte buffer at addresses 100..134 (the memory content is irrelevant
to `ptr_at`). -/
def c2buf : RawBufModel :=
  { startAddr := 100, endAddr := 134, mem := fun _ => 0 }

/-- A UDP header view as `Udp::from_bytes` would build it at offset 34 of a
42-byte buffer at start address 0. -/
def u6 : Udp :=
  { hdrAddr := 34
  , buf := { buf := { startAddr := 0, endAddr := 42, mem := fun _ => 0 }, nh_offset := 42 } }

/-- An IPv4 header view whose `ttl` byte (address 22) is 0. -/
def ipTtl0 : Ipv4 :=
  { hdrAddr := 14
  , buf := { buf := { startAddr := 0, endAddr := 34, mem := fun _ => 0 }, nh_offset := 34 } }

/-- An IPv4 header view whose `ttl` byte (address 22) is 255. -/
def ipTtl255 : Ipv4 :=
  { hdrAddr := 14
  , buf := { buf := { startAddr := 0, endAddr := 34
                    , mem := fun a => if a = 22 then 255 else 0 }
           , nh_offset := 34 } }

/-! Claim theorems. -/

/-- Claim C1, counterexample: on the 34-byte buffer with IPv4 protocol byte
6 (TCP) the walk does not return the Tcp dispatch value with the cursor at
34; it already fails inside `Ethernet::from_bytes` with `Err(NullPtr)`,
because `ptr_at` hands back the bare cursor offset 0 as the header pointer
and the `as_mut` null check rejects it. -/
theorem c1_counterexample : walkChain (c1buf 6) = some (.error Error.NullPtr) := rfl

/-- Claim C1 (amended): for every protocol byte of the claim (6, 17 and 1),
walking the chain over the 34-byte buffer returns `Err(NullPtr)` when the
buffer starts at address 0 (the only placement where the first bounds test
can pass) and `Err(OutOfBounds)` when it starts at address 100: `ptr_at`
compares `nh_offset + size` against the absolute `start()`/`end()` addresses
and returns the bare offset as the pointer, so the Ethernet parse never
succeeds and the advances to offset 14 and 34 and the L4 dispatch are never
reached. -/
theorem c1_walk_always_fails :
    walkChain (c1buf 6) = some (.error Error.NullPtr) ∧
    walkChain (c1buf 17) = some (.error Error.NullPtr) ∧
    walkChain (c1buf 1) = some (.error Error.NullPtr) ∧
    walkChain (c1bufShifted 6) = some (.error Error.OutOfBounds) ∧
    walkChain (c1bufShifted 17) = some (.error Error.OutOfBounds) ∧
    walkChain (c1bufShifted 1) = some (.error Error.OutOfBounds) :=
  ⟨rfl, rfl, rfl, rfl, rfl, rfl⟩

/-- Claim C2: evaluation of `ptr_at` at the failing input.  For the buffer
at `start() = 100`, `end() = 134` (length 34): at offset 0 with a 2-byte
type the claim (and the doc comment of `ptr_at`) promise a pointer to
`start() + 0`, but the code returns `None` because it compares `0 + 2`
against the absolute address 100; at offset 110 the claim promises `None`
because `110 + 2` exceeds the length 34, but the code returns `Some`, and
the pointer it returns is the bare offset 110, not `start() + 110`. -/
theorem c2_ptr_at_divergence :
    c2buf.len = 34 ∧
    c2buf.ptr_at 2 0 = none ∧
    c2buf.ptr_at 2 110 = some 110 :=
  ⟨rfl, rfl, rfl⟩

/-- Claim C6, counterexample: on an active `Udp` variant the unwrap
operations and the terminal parse do not return the residual cursor; they
hit the wildcard unimplemented panic arm (modelled as `none`), which the
claim reserves for the placeholder variant alone. -/
theorem c6_counterexample :
    (L4Proto.Udp u6).inner_buf = none ∧ (L4Proto.Udp u6).parse = none :=
  ⟨rfl, rfl⟩

/-- Claim C6 (amended): only the `Tcp` variant of `L4Proto` unwraps to its
residual cursor without panicking; the wildcard `unimplemented` arm of
`inner_buf` catches the `Udp` variant as well as the placeholder, so
`buf()`, `inner_buf()` and `parse()` panic on an active `Udp` value. -/
theorem c6_l4proto_unwrap :
    ∀ (t : Tcp) (u : Udp),
      (L4Proto.Tcp t).buf = some t.buf ∧
      (L4Proto.Tcp t).inner_buf = some t.buf ∧
      (L4Proto.Tcp t).parse = some (.ok t.buf) ∧
      (L4Proto.Udp u).inner_buf = none ∧
      (L4Proto.Udp u).parse = none ∧
      L4Proto.NonExaustive.inner_buf = none :=
  fun _ _ => ⟨rfl, rfl, rfl, rfl, rfl, rfl⟩

/-- Claim C7: `decr_ttl` on a TTL of 0 wraps to 255 and `incr_ttl` on a TTL
of 255 wraps to 0 — the 8-bit wraparound of the release-built `ttl -= 1` /
`ttl += 1`, with no saturation and no error. -/
theorem c7_ttl_wrap :
    ∀ ip : Ipv4,
      (ip.ttl = 0 → ip.decr_ttl.ttl = 255) ∧ (ip.ttl = 255 → ip.incr_ttl.ttl = 0) := by
  intro ip
  constructor
  · intro h
    have h2 : ip.buf.buf.mem (ip.hdrAddr + 8) = 0 := h
    simp [Ipv4.decr_ttl, Ipv4.ttl, RawBufModel.writeByte, h2]
  · intro h
    have h2 : ip.buf.buf.mem (ip.hdrAddr + 8) = 255 := h
    simp [Ipv4.incr_ttl, Ipv4.ttl, RawBufModel.writeByte, h2]

/-- Claim C7 witness: the wraparound evaluated on concrete header views with
TTL 0 and TTL 255. -/
theorem c7_ttl_wrap_witness : ipTtl0.decr_ttl.ttl = 255 ∧ ipTtl255.incr_ttl.ttl = 0 :=
  ⟨(c7_ttl_wrap ipTtl0).1 rfl, (c7_ttl_wrap ipTtl255).2 rfl⟩

/-- Claim C10: `from_any` returns a copy of its argument when the argument
has the `XdpAction` type id, and `XdpAction::Pass` for a value of every
other type. -/
theorem c10_from_any_fallback :
    (∀ a : XdpAction, XdpAction.from_any (AnyValue.action a) = a) ∧
    (∀ tid : Nat, XdpAction.from_any (AnyValue.other tid) = XdpAction.Pass) :=
  ⟨fun _ => rfl, fun _ => rfl⟩

/-- A 10-byte buffer at start address 0 whose byte at address `a` is `a`. -/
def c3buf : RawBufModel :=
  { startAddr := 0, endAddr := 10, mem := fun a => a }

/-- Claim C3: `load` returns `Err(LoadFailed)` exactly when `ptr_at` fails
its bounds check; when `ptr_at` yields a pointer, `load` returns
`Err(Unaligned)` if the source pointer or the destination slot address is
not a multiple of the alignment of the requested type, and otherwise a copy
of the `size_of` bytes at the checked location; every case returns, so no
panic is reachable. -/
theorem c3_load_behavior (b : RawBufModel) (T : RustType) (offset dstAddr : Nat) :
    (b.ptr_at T.size offset = none → b.load T offset dstAddr = .error Error.LoadFailed) ∧
    (∀ p, b.ptr_at T.size offset = some p →
      ((p % T.align ≠ 0 ∨ dstAddr % T.align ≠ 0) →
        b.load T offset dstAddr = .error Error.Unaligned) ∧
      (p % T.align = 0 → dstAddr % T.align = 0 →
        b.load T offset dstAddr = .ok (readBytes b p T.size))) := by
  refine ⟨fun h => ?_, fun p hp => ⟨fun hun => ?_, fun h1 h2 => ?_⟩⟩
  · unfold RawBufModel.load
    rw [h]
  · unfold RawBufModel.load
    rw [hp]
    have hcond : (p % T.align != 0 || dstAddr % T.align != 0) = true := by
      rcases hun with h | h <;> simp [bne_iff_ne, h]
    simp [hcond]
  · unfold RawBufModel.load
    rw [hp]
    simp [h1, h2]

/-- Claim C3 witness: the three outcomes of `load` evaluated on a concrete
buffer — an unaligned source offset, an out-of-bounds offset, and an
in-bounds aligned offset. -/
theorem c3_load_behavior_witness :
    c3buf.load { size := 2, align := 2 } 1 0 = .error Error.Unaligned ∧
    c3buf.load { size := 2, align := 2 } 20 0 = .error Error.LoadFailed ∧
    c3buf.load { size := 2, align := 2 } 4 0 = .ok (readBytes c3buf 4 2) :=
  ⟨((c3_load_behavior c3buf { size := 2, align := 2 } 1 0).2 1 rfl).1 (Or.inl (by decide)),
   (c3_load_behavior c3buf { size := 2, align := 2 } 20 0).1 rfl,
   ((c3_load_behavior c3buf { size := 2, align := 2 } 4 0).2 4 rfl).2 (by decide) (by decide)⟩

/-- The buffer of the C4 counterexample: the IPv4 protocol byte of a header
view at address 50 (field address 59) holds 17 (UDP), with ample room for
any further header. -/
def c4buf : RawBufModel :=
  { startAddr := 0, endAddr := 100, mem := fun a => if a = 59 then 17 else 0 }

/-- An IPv4 header view over `c4buf` with `protocol() = 17`, its cursor at
offset 34. -/
def ip17 : Ipv4 :=
  { hdrAddr := 50, buf := { buf := c4buf, nh_offset := 34 } }

/-- Claim C4, counterexample: `Ipv4::parse` on a header view whose protocol
byte is 17 (UDP) does not yield the Udp dispatch variant; it returns
`Err(UnimplementedProtocol(17))`, because the match in layer3/ipv4.rs has an
arm for `IPPROTO_TCP` only. -/
theorem c4_counterexample :
    ip17.protocol = 17 ∧ ip17.parse = .error (Error.UnimplementedProtocol 17) :=
  ⟨rfl, rfl⟩

/-- Claim C4 (amended): `Ipv4::parse` matches `protocol()` against the TCP
constant only — protocol 6 consumes the next bytes as a TCP header and
yields the Tcp variant (propagating any construction error), and every other
protocol value `c`, UDP included, yields `Err(UnimplementedProtocol(c))`;
the dispatch that also matches the UDP constant and yields the Udp variant
is `L3Proto::parse` in layer3.rs. -/
theorem c4_ipv4_parse_tcp_only (ip : Ipv4) :
    (ip.protocol ≠ IPPROTO_TCP → ip.parse = .error (.UnimplementedProtocol ip.protocol)) ∧
    (∀ t, ip.protocol = IPPROTO_TCP → Tcp.from_bytes ip.buf = .ok t →
      ip.parse = .ok (L4Proto.Tcp t)) ∧
    (∀ u, ip.protocol = IPPROTO_UDP → Udp.from_bytes ip.buf = .ok u →
      (L3Proto.Ipv4 ip).parse = some (.ok (L4Proto.Udp u))) := by
  refine ⟨fun h => ?_, fun t h ht => ?_, fun u h hu => ?_⟩
  · unfold Ipv4.parse
    rw [if_neg h]
  · unfold Ipv4.parse
    rw [if_pos h, ht]
  · simp only [L3Proto.parse]
    rw [h, hu]
    simp [IPPROTO_TCP, IPPROTO_UDP]

/-- Claim C4 witness: the amended statement evaluated on the concrete
header view with protocol 17 — `Ipv4::parse` reports the unimplemented
protocol while `L3Proto::parse` yields the Udp variant. -/
theorem c4_ipv4_parse_tcp_only_witness :
    ip17.parse = .error (Error.UnimplementedProtocol 17) ∧
    (L3Proto.Ipv4 ip17).parse =
      some (.ok (L4Proto.Udp { hdrAddr := 34, buf := { buf := c4buf, nh_offset := 42 } })) :=
  ⟨(c4_ipv4_parse_tcp_only ip17).1 (by decide),
   (c4_ipv4_parse_tcp_only ip17).2.2
     { hdrAddr := 34, buf := { buf := c4buf, nh_offset := 42 } } rfl rfl⟩

/-- A bitwise AND against a mask whose lowest bit is clear can never be 1. -/
lemma land_ne_one (x m : Nat) (hm : m.testBit 0 = false) : x &&& m ≠ 1 := by
  intro h
  have h0 : (x &&& m).testBit 0 = (1 : Nat).testBit 0 := by rw [h]
  rw [Nat.testBit_land, hm, Bool.and_false] at h0
  have h1 : (1 : Nat).testBit 0 = true := by decide
  rw [h1] at h0
  exact Bool.false_ne_true h0

/-- The buffer of the C5 evaluation: the raw `frag_off` field of a header
view at address 14 (field bytes at addresses 20 and 21) holds 0x4000 — the
DF bit set. -/
def c5buf : RawBufModel :=
  { startAddr := 0, endAddr := 100, mem := fun a => if a = 21 then 64 else 0 }

/-- An IPv4 header view over `c5buf` whose `frag_off` field value is
0x4000. -/
def ipDf : Ipv4 :=
  { hdrAddr := 14, buf := { buf := c5buf, nh_offset := 34 } }

/-- Claim C5: `df()` and `mf()` compare the masked 16-bit field against the
literal 1 instead of testing it for non-zero, so both return false for every
field value; in particular, on a header whose `frag_off` is 0x4000 (DF bit
set) `df()` still returns false, contradicting both the claim and the doc
comment of `df`. -/
theorem c5_df_mf_never_true :
    (∀ ip : Ipv4, ip.df = false ∧ ip.mf = false) ∧
    ipDf.frag_off = 16384 ∧ ipDf.df = false := by
  refine ⟨fun ip => ⟨?_, ?_⟩, rfl, rfl⟩
  · have hne := land_ne_one ip.frag_off 16384 (by decide)
    simp [Ipv4.df, hne]
  · have hne := land_ne_one ip.frag_off 8192 (by decide)
    simp [Ipv4.mf, hne]

/-- Traversing a concatenation: taking the length of the first part gives
the first part back. -/
lemma take_length_append (x r : List Nat) : (x ++ r).take x.length = x := by
  induction x with
  | nil => rfl
  | cons a t ih => simp [ih]

/-- Traversing a concatenation: dropping the length of the first part gives
the second part. -/
lemma drop_length_append (x r : List Nat) : (x ++ r).drop x.length = r := by
  induction x with
  | nil => rfl
  | cons a t ih => simp [ih]

/-- Dropping past the first part of a concatenation drops the remainder from
the second part. -/
lemma drop_length_add_append (x r : List Nat) (k : Nat) :
    (x ++ r).drop (x.length + k) = r.drop k := by
  induction x with
  | nil => simp
  | cons a t ih =>
    have h : (a :: t).length + k = (t.length + k) + 1 := by
      simp [List.length_cons]
      omega
    rw [List.cons_append, h, List.drop_succ_cons]
    exact ih

/-- A `u32` value below 2^32 survives the little-endian encode/decode round
trip, also with trailing bytes present. -/
lemma readLe32_le32_append (v : Nat) (hv : v < 4294967296) (rest : List Nat) :
    readLe32 (le32 v ++ rest) = v := by
  show v % 256 + 256 * (v / 256 % 256) + 65536 * (v / 65536 % 256) +
      16777216 * (v / 16777216 % 256) = v
  omega

/-- Decoding the kernel-side byte image through the user-space mirror
declaration recovers the record fields. -/
lemma decode_encode (x : List Nat) (o s : Nat)
    (ho : o < 4294967296) (hs : s < 4294967296) :
    MapDataUser.decode x.length (MapData.encode { data := x, offset := o, size := s }) =
      { data := x, offset := o, size := s } := by
  unfold MapDataUser.decode MapData.encode
  simp only [List.append_assoc]
  rw [take_length_append, drop_length_append, drop_length_add_append]
  have h4 : (le32 o ++ le32 s).drop 4 = le32 s := rfl
  have h5 : readLe32 (le32 s) = s := by
    have h6 := readLe32_le32_append s hs []
    simpa using h6
  rw [readLe32_le32_append o ho, h4, h5]

/-- Claim C8: `MapData::new` yields `offset = 0` and `size = 0`;
`MapData::with_payload(x, o, s)` yields `offset = o` and `size = s`; and
reinterpreting the kernel-side record byte image through the independently
declared user-space wire-mirror struct — both declare the fields in the
order `data, offset, size` with identical widths — recovers identical
`data`, `offset` and `size` values. -/
theorem c8_mapdata_layout (x : List Nat) (o s : Nat)
    (ho : o < 4294967296) (hs : s < 4294967296) :
    (MapData.new x).offset = 0 ∧ (MapData.new x).size = 0 ∧
    (MapData.with_payload x o s).offset = o ∧ (MapData.with_payload x o s).size = s ∧
    MapDataUser.decode x.length (MapData.encode (MapData.with_payload x o s)) =
      { data := x, offset := o, size := s } ∧
    MapDataUser.decode x.length (MapData.encode (MapData.new x)) =
      { data := x, offset := 0, size := 0 } :=
  ⟨rfl, rfl, rfl, rfl, decode_encode x o s ho hs, decode_encode x 0 0 (by decide) (by decide)⟩

/-- Claim C8 witness: the layout compatibility evaluated at the concrete
record of the claim, built with offset 4 and size 10. -/
theorem c8_mapdata_layout_witness :
    (MapData.with_payload [1, 2] 4 10).offset = 4 ∧
    (MapData.with_payload [1, 2] 4 10).size = 10 ∧
    MapDataUser.decode 2 (MapData.encode (MapData.with_payload [1, 2] 4 10)) =
      { data := [1, 2], offset := 4, size := 10 } := by
  have h := c8_mapdata_layout [1, 2] 4 10 (by decide) (by decide)
  exact ⟨h.2.2.1, h.2.2.2.1, h.2.2.2.2.1⟩

/-- Claim C9: for a record whose `size` is positive, `insert` derives the
payload-append flag from the record (`with_xdp_size(data.size)`), and
`insert_with_flags` overwrites the `xdp_size` field of the caller-supplied
flags with `data.size` before emitting, leaving the other flag field
untouched — the caller-supplied value of that one field is never used. -/
theorem c9_xdp_size_forced (d : MapData) (flags : PerfMapFlags) (_h : 0 < d.size) :
    (PerfMap.insert d).2.xdp_size = d.size ∧
    (PerfMap.insert_with_flags d flags).2.xdp_size = d.size ∧
    (PerfMap.insert_with_flags d flags).2.index = flags.index ∧
    (PerfMap.insert d).1 = d ∧
    (PerfMap.insert_with_flags d flags).1 = d :=
  ⟨rfl, rfl, rfl, rfl, rfl⟩

/-- Claim C9 witness: a record of size 5 emitted through caller flags that
request `xdp_size = 999` still goes out with the flag forced to 5. -/
theorem c9_xdp_size_forced_witness :
    (PerfMap.insert_with_flags (MapData.with_payload [7] 0 5)
        { index := 3, xdp_size := 999 }).2.xdp_size = 5 ∧
    (PerfMap.insert (MapData.with_payload [7] 0 5)).2.xdp_size = 5 := by
  have h := c9_xdp_size_forced (MapData.with_payload [7] 0 5)
    { index := 3, xdp_size := 999 } (by decide)
  exact ⟨h.2.1, h.1⟩

end RedBpf
